import Mathlib

/-!
Shallow embedding of the Mama Eidah backend's data-access layer
(src/main.py, src/schemas.py) over an explicit document-store state.

Modelling conventions:
* The document store is a `DB` record of five collections, each a `List` of
  documents in insertion order; `find_one` is `List.find?`, `delete_many`
  is a filter, and `delete_one`/`update_one` act on the first matching
  document, as pymongo does on a collection scanned in natural order.
* A bson `ObjectId` is represented by its canonical 24-character lowercase
  hex string; `ObjectId(s)` accepts a 24-character hex string of either case
  and normalises to lowercase (`oid`); structurally invalid input raises,
  which main.py's `oid` maps to `Err.invalidIdentifier` (HTTP 400).
* Timestamps are opaque strings supplied by the caller (`now`), standing for
  `datetime.now(timezone.utc)` / its `isoformat()`; store-generated document
  ids are supplied as a `newId` argument.
* Python float grades are modelled by exact rationals: the code only stores
  and returns them, no arithmetic is performed on them.
* `HTTPException` aborts the request after any store writes already issued,
  so every mutating endpoint returns `Except Err result × DB`: the second
  component is the store state after the call, also on failure.
-/

namespace MamaEidah

/-- Error taxonomy of the endpoints: HTTP 400 for a malformed identifier
(main.py `oid`), 404 for a missing document, and HTTP 400 with the
duplicate-code message in `add_student`/`update_student`. -/
inductive Err where
  | invalidIdentifier
  | notFound
  | duplicateCode
  deriving DecidableEq, Repr

/-- Homework.status : Literal["pending", "submitted", "graded"] (schemas.py). -/
inductive HwStatus where
  | pending
  | submitted
  | graded
  deriving DecidableEq, Repr

/-- Submission.status : Literal["submitted", "graded"] (schemas.py). -/
inductive SubStatus where
  | submitted
  | graded
  deriving DecidableEq, Repr

/-- Lesson.status : Literal["scheduled", "completed", "cancelled", "rescheduled"]. -/
inductive LessonStatus where
  | scheduled
  | completed
  | cancelled
  | rescheduled
  deriving DecidableEq, Repr

/-- Message.sender / login role : Literal["teacher", "student"]. -/
inductive Role where
  | teacher
  | student
  deriving DecidableEq, Repr

/-- Hex digit as accepted by `bytes.fromhex` inside `bson.ObjectId.__init__`. -/
def isHexChar (c : Char) : Bool :=
  c.isDigit || (97 ≤ c.toNat && c.toNat ≤ 102) || (65 ≤ c.toNat && c.toNat ≤ 70)

/-- A string parses as a bson ObjectId iff it is 24 hex characters
(either case). -/
def isValidOid (s : String) : Bool :=
  s.length == 24 && s.toList.all isHexChar

/-- Lowercase a hex letter A-F; on the 24-hex-character strings accepted by
`isValidOid` this maps a string to the canonical lowercase rendering that
`str(ObjectId(s))` produces. -/
def hexLowerChar (c : Char) : Char :=
  if c = 'A' then 'a' else if c = 'B' then 'b' else if c = 'C' then 'c'
  else if c = 'D' then 'd' else if c = 'E' then 'e' else if c = 'F' then 'f'
  else c

def hexLower (s : String) : String :=
  ⟨s.data.map hexLowerChar⟩

/-- main.py `oid`: `ObjectId(id_str)`, with any exception mapped to the
HTTP 400 invalid-identifier error. The resulting ObjectId is represented by
its canonical lowercase hex string. -/
def oid (s : String) : Except Err String :=
  if isValidOid s then .ok (hexLower s) else .error .invalidIdentifier

/-- `TEACHER_CODE = os.getenv("TEACHER_CODE", "9999")` (main.py line 22). -/
def TEACHER_CODE (env : Option String) : String :=
  env.getD "9999"

/-- Stored `student` document (schemas.Student plus the store-managed
`_id`, `created_at`, `updated_at`). -/
structure StudentDoc where
  _id : String
  name : String
  gender : String
  grade : String
  code : String
  avatar : String
  created_at : String
  updated_at : Option String
  deriving DecidableEq, Repr

/-- Stored `lesson` document. -/
structure LessonDoc where
  _id : String
  student_id : String
  date : String
  start_time : String
  topic : String
  notes : Option String
  status : LessonStatus
  created_at : String
  updated_at : Option String
  deriving DecidableEq, Repr

/-- Stored `homework` document. -/
structure HomeworkDoc where
  _id : String
  student_id : String
  lesson_id : Option String
  title : String
  description : Option String
  due_date : Option String
  attachment_url : Option String
  status : HwStatus
  created_at : String
  updated_at : Option String
  deriving DecidableEq, Repr

/-- Stored `submission` document. -/
structure SubmissionDoc where
  _id : String
  homework_id : String
  student_id : String
  file_url : Option String
  submitted_at : Option String
  status : SubStatus
  grade : Option Rat
  feedback : Option String
  created_at : String
  updated_at : Option String
  deriving DecidableEq, Repr

/-- Stored `message` document. -/
structure MessageDoc where
  _id : String
  student_id : String
  sender : Role
  text : String
  read : Bool
  created_at : String
  updated_at : Option String
  deriving DecidableEq, Repr

/-- Request body of the Student endpoints (schemas.Student). -/
structure StudentIn where
  name : String
  gender : String
  grade : String
  code : String
  avatar : String
  deriving DecidableEq, Repr

/-- Request body of the Lesson endpoints (schemas.Lesson). -/
structure LessonIn where
  student_id : String
  date : String
  start_time : String
  topic : String
  notes : Option String
  status : LessonStatus
  deriving DecidableEq, Repr

/-- Request body of the Homework endpoints (schemas.Homework). -/
structure HomeworkIn where
  student_id : String
  lesson_id : Option String
  title : String
  description : Option String
  due_date : Option String
  attachment_url : Option String
  status : HwStatus
  deriving DecidableEq, Repr

/-- `SubmitRequest` (main.py). -/
structure SubmitRequest where
  file_url : Option String
  deriving DecidableEq, Repr

/-- `GradeRequest` (main.py). -/
structure GradeRequest where
  grade : Rat
  feedback : Option String
  deriving DecidableEq, Repr

/-- `serialize` applied to a student document: `_id` renamed to `id`
(string form), datetimes already textual in this model. -/
structure StudentOut where
  id : String
  name : String
  gender : String
  grade : String
  code : String
  avatar : String
  created_at : String
  updated_at : Option String
  deriving DecidableEq, Repr

/-- `serialize` applied to a lesson document. -/
structure LessonOut where
  id : String
  student_id : String
  date : String
  start_time : String
  topic : String
  notes : Option String
  status : LessonStatus
  created_at : String
  updated_at : Option String
  deriving DecidableEq, Repr

/-- `serialize` applied to a homework document. -/
structure HomeworkOut where
  id : String
  student_id : String
  lesson_id : Option String
  title : String
  description : Option String
  due_date : Option String
  attachment_url : Option String
  status : HwStatus
  created_at : String
  updated_at : Option String
  deriving DecidableEq, Repr

/-- `serialize` applied to a submission document. -/
structure SubmissionOut where
  id : String
  homework_id : String
  student_id : String
  file_url : Option String
  submitted_at : Option String
  status : SubStatus
  grade : Option Rat
  feedback : Option String
  created_at : String
  updated_at : Option String
  deriving DecidableEq, Repr

/-- `LoginResponse` (main.py): role plus optional serialized student. -/
structure LoginResponse where
  role : Role
  student : Option StudentOut
  deriving DecidableEq, Repr

def serializeStudent (s : StudentDoc) : StudentOut :=
  { id := s._id, name := s.name, gender := s.gender, grade := s.grade,
    code := s.code, avatar := s.avatar, created_at := s.created_at,
    updated_at := s.updated_at }

def serializeLesson (l : LessonDoc) : LessonOut :=
  { id := l._id, student_id := l.student_id, date := l.date,
    start_time := l.start_time, topic := l.topic, notes := l.notes,
    status := l.status, created_at := l.created_at, updated_at := l.updated_at }

def serializeHomework (h : HomeworkDoc) : HomeworkOut :=
  { id := h._id, student_id := h.student_id, lesson_id := h.lesson_id,
    title := h.title, description := h.description, due_date := h.due_date,
    attachment_url := h.attachment_url, status := h.status,
    created_at := h.created_at, updated_at := h.updated_at }

def serializeSubmission (s : SubmissionDoc) : SubmissionOut :=
  { id := s._id, homework_id := s.homework_id, student_id := s.student_id,
    file_url := s.file_url, submitted_at := s.submitted_at, status := s.status,
    grade := s.grade, feedback := s.feedback, created_at := s.created_at,
    updated_at := s.updated_at }

/-- pymongo `delete_many`: removes every matching document. -/
def deleteMany (l : List α) (p : α → Bool) : List α :=
  l.filter (fun a => !(p a))

/-- pymongo `delete_one`: removes the first matching document; the first
component is `deleted_count`. -/
def deleteOne : List α → (α → Bool) → Nat × List α
  | [], _ => (0, [])
  | a :: as, p =>
    if p a then (1, as)
    else
      let r := deleteOne as p
      (r.1, a :: r.2)

/-- pymongo `update_one` with a `$set` patch: rewrites the first matching
document; the first component is `matched_count`. -/
def updateOne : List α → (α → Bool) → (α → α) → Nat × List α
  | [], _, _ => (0, [])
  | a :: as, p, f =>
    if p a then (1, f a :: as)
    else
      let r := updateOne as p f
      (r.1, a :: r.2)

/-- Modelled from the spec: `create_document(collection_name, model)` lives in
database.py, which is not among the provided sources. Per §4.2 the adapter
inserts the document, stamps `created_at` with the current UTC time, and
returns the generated identifier; callers re-fetch the stored document. The
endpoint functions below construct the stored document with the generated
`newId` and the `created_at` stamp and pass it here; insertion appends in
natural order. -/
def create_document (l : List α) (doc : α) : List α :=
  l ++ [doc]

/-- The document store: one list per collection used by main.py. -/
structure DB where
  student : List StudentDoc
  lesson : List LessonDoc
  homework : List HomeworkDoc
  submission : List SubmissionDoc
  message : List MessageDoc
  deriving DecidableEq, Repr

/-- Python `str.strip()` with no argument: removes leading and trailing
whitespace characters. -/
def pyStrip (s : String) : String :=
  ⟨(((s.data.dropWhile Char.isWhitespace).reverse).dropWhile
      Char.isWhitespace).reverse⟩

/-- main.py `login`: strips the presented code (`req.code.strip()`),
compares it with `TEACHER_CODE`, otherwise looks a student up by the
stripped code. Read-only, so no state is returned. -/
def login (db : DB) (teacherCode : String) (reqCode : String) :
    Except Err LoginResponse :=
  let code := pyStrip reqCode
  if code == teacherCode then .ok { role := .teacher, student := none }
  else
    match db.student.find? (fun s => s.code == code) with
    | some st => .ok { role := .student, student := some (serializeStudent st) }
    | none => .error .notFound

/-- main.py `add_student`: rejects a duplicate code, otherwise inserts via
`create_document` and re-fetches by the returned id. -/
def add_student (db : DB) (input : StudentIn) (newId now : String) :
    Except Err (Option StudentOut) × DB :=
  if (db.student.find? (fun s => s.code == input.code)).isSome then
    (.error .duplicateCode, db)
  else
    let doc : StudentDoc :=
      { _id := newId, name := input.name, gender := input.gender,
        grade := input.grade, code := input.code, avatar := input.avatar,
        created_at := now, updated_at := none }
    let students := create_document db.student doc
    ((.ok ((students.find? (fun s => s._id == newId)).map serializeStudent)),
     { db with student := students })

/-- The `$set` patch of `update_student` (model fields plus `updated_at`). -/
def studentSet (data : StudentIn) (now : String) (s : StudentDoc) : StudentDoc :=
  { s with name := data.name, gender := data.gender, grade := data.grade,
           code := data.code, avatar := data.avatar, updated_at := some now }

/-- The `$set` patch of `update_lesson`. -/
def lessonSet (data : LessonIn) (now : String) (l : LessonDoc) : LessonDoc :=
  { l with student_id := data.student_id, date := data.date,
           start_time := data.start_time, topic := data.topic,
           notes := data.notes, status := data.status, updated_at := some now }

/-- The `$set` patch of `update_homework`. -/
def homeworkSet (data : HomeworkIn) (now : String) (h : HomeworkDoc) : HomeworkDoc :=
  { h with student_id := data.student_id, lesson_id := data.lesson_id,
           title := data.title, description := data.description,
           due_date := data.due_date, attachment_url := data.attachment_url,
           status := data.status, updated_at := some now }

/-- The `$set` patch on a homework's status used by `submit_homework` and
`grade_submission`. -/
def homeworkStatusSet (st : HwStatus) (now : String) (h : HomeworkDoc) : HomeworkDoc :=
  { h with status := st, updated_at := some now }

/-- The `$set` patch of `grade_submission` on the submission. -/
def submissionGradeSet (body : GradeRequest) (now : String) (s : SubmissionDoc) : SubmissionDoc :=
  { s with grade := some body.grade, feedback := body.feedback,
           status := SubStatus.graded, updated_at := some now }

/-- The `$set` patch of `mark_read`. -/
def messageReadSet (now : String) (m : MessageDoc) : MessageDoc :=
  { m with read := true, updated_at := some now }

/-- main.py `update_student`: duplicate-code check excluding `_id == oid(id)`,
then `update_one` on `_id`, 404 when nothing matched, else re-fetch. -/
def update_student (db : DB) (student_id : String) (data : StudentIn)
    (now : String) : Except Err (Option StudentOut) × DB :=
  match oid student_id with
  | .error e => (.error e, db)
  | .ok sid =>
    if (db.student.find? (fun s => s.code == data.code && s._id != sid)).isSome then
      (.error .duplicateCode, db)
    else
      let r := updateOne db.student (fun s => s._id == sid) (studentSet data now)
      if r.1 = 0 then (.error .notFound, { db with student := r.2 })
      else
        ((.ok ((r.2.find? (fun s => s._id == sid)).map serializeStudent)),
         { db with student := r.2 })

/-- The cascade body of main.py `delete_student` (lines 119-125): delete
lessons by raw `student_id`, collect the matching homeworks, delete each
homework's submissions by the homework's canonical id string, delete those
homeworks, delete messages. -/
def cascadeStudent (db : DB) (student_id : String) : DB :=
  let db1 := { db with lesson := deleteMany db.lesson (fun l => l.student_id == student_id) }
  let hws := db1.homework.filter (fun h => h.student_id == student_id)
  let subs :=
    hws.foldl (fun acc hw => deleteMany acc (fun s => s.homework_id == hw._id)) db1.submission
  let db2 := { db1 with submission := subs }
  let db3 := { db2 with homework := deleteMany db2.homework (fun h => h.student_id == student_id) }
  { db3 with message := deleteMany db3.message (fun m => m.student_id == student_id) }

/-- main.py `delete_student`: `oid` first, then the cascade, then
`delete_one` on the student; 404 when no student was deleted. -/
def delete_student (db : DB) (student_id : String) : Except Err Unit × DB :=
  match oid student_id with
  | .error e => (.error e, db)
  | .ok sid =>
    let db1 := cascadeStudent db student_id
    let r := deleteOne db1.student (fun s => s._id == sid)
    if r.1 = 0 then (.error .notFound, { db1 with student := r.2 })
    else (.ok (), { db1 with student := r.2 })

/-- main.py `update_lesson`. -/
def update_lesson (db : DB) (lesson_id : String) (data : LessonIn)
    (now : String) : Except Err (Option LessonOut) × DB :=
  match oid lesson_id with
  | .error e => (.error e, db)
  | .ok lid =>
    let r := updateOne db.lesson (fun l => l._id == lid) (lessonSet data now)
    if r.1 = 0 then (.error .notFound, { db with lesson := r.2 })
    else
      ((.ok ((r.2.find? (fun l => l._id == lid)).map serializeLesson)),
       { db with lesson := r.2 })

/-- main.py `delete_lesson`. -/
def delete_lesson (db : DB) (lesson_id : String) : Except Err Unit × DB :=
  match oid lesson_id with
  | .error e => (.error e, db)
  | .ok lid =>
    let r := deleteOne db.lesson (fun l => l._id == lid)
    if r.1 = 0 then (.error .notFound, { db with lesson := r.2 })
    else (.ok (), { db with lesson := r.2 })

/-- main.py `update_homework`. -/
def update_homework (db : DB) (hw_id : String) (data : HomeworkIn)
    (now : String) : Except Err (Option HomeworkOut) × DB :=
  match oid hw_id with
  | .error e => (.error e, db)
  | .ok hid =>
    let r := updateOne db.homework (fun h => h._id == hid) (homeworkSet data now)
    if r.1 = 0 then (.error .notFound, { db with homework := r.2 })
    else
      ((.ok ((r.2.find? (fun h => h._id == hid)).map serializeHomework)),
       { db with homework := r.2 })

/-- main.py `delete_homework`: the `delete_many` on submissions filters by
the RAW path string and runs before `oid(hw_id)` is evaluated; only then is
the homework deleted by its parsed id. -/
def delete_homework (db : DB) (hw_id : String) : Except Err Unit × DB :=
  let db1 := { db with submission := deleteMany db.submission (fun s => s.homework_id == hw_id) }
  match oid hw_id with
  | .error e => (.error e, db1)
  | .ok hid =>
    let r := deleteOne db1.homework (fun h => h._id == hid)
    if r.1 = 0 then (.error .notFound, { db1 with homework := r.2 })
    else (.ok (), { db1 with homework := r.2 })

/-- A Python-truthiness optional filter: `if param:` skips the filter both
for `None` and for the empty string. -/
def matchesOptStr (param : Option String) (field : String) : Bool :=
  match param with
  | none => true
  | some s => if s == "" then true else field == s

/-- Insert into a list kept in descending `key` order (stable). -/
def insertDescBy (key : α → String) (a : α) : List α → List α
  | [] => [a]
  | b :: bs => if key b ≤ key a then a :: b :: bs else b :: insertDescBy key a bs

/-- Insertion sort, descending by `key`: models Mongo `sort(field, -1)`. -/
def sortDescBy (key : α → String) : List α → List α
  | [] => []
  | a :: as => insertDescBy key a (sortDescBy key as)

/-- main.py `list_submissions`: optional raw-string filters on `student_id`
and `homework_id`, sorted by `created_at` descending, serialized. -/
def list_submissions (db : DB) (student_id homework_id : Option String) :
    List SubmissionOut :=
  let q := fun (s : SubmissionDoc) =>
    matchesOptStr student_id s.student_id && matchesOptStr homework_id s.homework_id
  (sortDescBy (fun s : SubmissionDoc => s.created_at) (db.submission.filter q)).map
    serializeSubmission

/-- The submission document constructed by `submit_homework` (the
`SubmissionSchema(...)` literal of main.py lines 206-212 plus the
`created_at` stamp of `create_document`): `homework_id` stores the RAW
`hw_id` path string and `student_id` the query parameter verbatim. -/
def newSubmission (hw_id student_id : String) (body : SubmitRequest)
    (now newId : String) : SubmissionDoc :=
  { _id := newId, homework_id := hw_id, student_id := student_id,
    file_url := body.file_url, submitted_at := some now,
    status := .submitted, grade := none, feedback := none,
    created_at := now, updated_at := none }

/-- main.py `submit_homework`: look the homework up by `oid(hw_id)` (404 when
absent), create the submission — note `homework_id` stores the RAW `hw_id`
string and `student_id` the query parameter verbatim — then set the homework
status to `submitted` and re-fetch the submission. -/
def submit_homework (db : DB) (hw_id student_id : String) (body : SubmitRequest)
    (now newId : String) : Except Err (Option SubmissionOut) × DB :=
  match oid hw_id with
  | .error e => (.error e, db)
  | .ok hid =>
    match db.homework.find? (fun h => h._id == hid) with
    | none => (.error .notFound, db)
    | some _ =>
      let data := newSubmission hw_id student_id body now newId
      let subs := create_document db.submission data
      let hwr := updateOne db.homework (fun h => h._id == hid)
        (homeworkStatusSet HwStatus.submitted now)
      ((.ok ((subs.find? (fun s => s._id == newId)).map serializeSubmission)),
       { db with submission := subs, homework := hwr.2 })

/-- main.py `grade_submission`: `update_one` on the submission (404 when
nothing matched), re-fetch it, then `update_one` the parent homework found
through `oid(sub["homework_id"])`. -/
def grade_submission (db : DB) (sub_id : String) (body : GradeRequest)
    (now : String) : Except Err (Option SubmissionOut) × DB :=
  match oid sub_id with
  | .error e => (.error e, db)
  | .ok sid =>
    let r := updateOne db.submission (fun s => s._id == sid)
      (submissionGradeSet body now)
    if r.1 = 0 then (.error .notFound, { db with submission := r.2 })
    else
      match r.2.find? (fun s => s._id == sid) with
      | none =>
        -- unreachable: matched_count > 0 guarantees the re-fetch succeeds
        (.ok none, { db with submission := r.2 })
      | some sub =>
        match oid sub.homework_id with
        | .error e => (.error e, { db with submission := r.2 })
        | .ok hid =>
          let hwr := updateOne db.homework (fun h => h._id == hid)
            (homeworkStatusSet HwStatus.graded now)
          ((.ok (some (serializeSubmission sub))),
           { db with submission := r.2, homework := hwr.2 })

/-- main.py `mark_read`: `update_one` setting `read := true`, 404 when
nothing matched. -/
def mark_read (db : DB) (msg_id : String) (now : String) :
    Except Err Unit × DB :=
  match oid msg_id with
  | .error e => (.error e, db)
  | .ok mid =>
    let r := updateOne db.message (fun m => m._id == mid) (messageReadSet now)
    if r.1 = 0 then (.error .notFound, { db with message := r.2 })
    else (.ok (), { db with message := r.2 })

/-! ### Lemmas about the store primitives -/

theorem mem_deleteMany {l : List α} {p : α → Bool} {a : α} :
    a ∈ deleteMany l p ↔ a ∈ l ∧ p a = false := by
  simp [deleteMany, List.mem_filter]

theorem mem_foldl_deleteMany {S H : Type} (key : S → H → Bool) :
    ∀ (hws : List H) (subs : List S) (s : S),
      s ∈ hws.foldl (fun acc hw => deleteMany acc (fun x => key x hw)) subs ↔
        s ∈ subs ∧ ∀ hw ∈ hws, key s hw = false := by
  intro hws
  induction hws with
  | nil => intro subs s; simp
  | cons hw hws ih =>
    intro subs s
    rw [List.foldl_cons, ih, mem_deleteMany]
    simp only [List.mem_cons, forall_eq_or_imp]
    tauto

theorem deleteOne_of_no_match {l : List α} {p : α → Bool}
    (h : ∀ a ∈ l, p a = false) : deleteOne l p = (0, l) := by
  induction l with
  | nil => rfl
  | cons a as ih =>
    have ha := h a (List.mem_cons_self a as)
    simp [deleteOne, ha, ih (fun b hb => h b (List.mem_cons_of_mem a hb))]

theorem deleteOne_fst_pos {l : List α} {p : α → Bool}
    (h : ∃ a ∈ l, p a = true) : (deleteOne l p).1 ≠ 0 := by
  induction l with
  | nil => simp at h
  | cons a as ih =>
    obtain ⟨b, hb, hpb⟩ := h
    by_cases ha : p a = true
    · simp [deleteOne, ha]
    · have ha' : p a = false := Bool.eq_false_iff.mpr ha
      rcases List.mem_cons.mp hb with rfl | hb'
      · exact absurd hpb ha
      · simpa [deleteOne, ha'] using ih ⟨b, hb', hpb⟩

theorem mem_of_mem_deleteOne {l : List α} {p : α → Bool} {b : α}
    (h : b ∈ (deleteOne l p).2) : b ∈ l := by
  induction l with
  | nil => simp [deleteOne] at h
  | cons a as ih =>
    by_cases ha : p a = true
    · simp [deleteOne, ha] at h
      exact List.mem_cons_of_mem a h
    · have ha' : p a = false := Bool.eq_false_iff.mpr ha
      simp [deleteOne, ha'] at h
      rcases h with hba | h'
      · simp [hba]
      · exact List.mem_cons_of_mem a (ih h')

theorem deleteOne_key_not_mem (key : α → String) {l : List α} {k : String}
    (hnd : (l.map key).Nodup) :
    ∀ b ∈ (deleteOne l (fun a => key a == k)).2, key b ≠ k := by
  induction l with
  | nil => simp [deleteOne]
  | cons a as ih =>
    rw [List.map_cons, List.nodup_cons] at hnd
    obtain ⟨hna, hnd'⟩ := hnd
    intro b hb
    by_cases ha : key a = k
    · have hpa : (fun a => key a == k) a = true := by simp [ha]
      simp only [deleteOne, hpa, if_true] at hb
      intro hk
      exact hna (ha ▸ hk ▸ List.mem_map_of_mem key hb)
    · have hpa : (fun a => key a == k) a = false := by simp [ha]
      simp only [deleteOne, hpa, Bool.false_eq_true, if_false, List.mem_cons] at hb
      rcases hb with rfl | hb'
      · exact ha
      · exact ih hnd' b hb'

theorem updateOne_of_no_match {l : List α} {p : α → Bool} {f : α → α}
    (h : ∀ a ∈ l, p a = false) : updateOne l p f = (0, l) := by
  induction l with
  | nil => rfl
  | cons a as ih =>
    have ha := h a (List.mem_cons_self a as)
    simp [updateOne, ha, ih (fun b hb => h b (List.mem_cons_of_mem a hb))]

theorem updateOne_fst_pos {l : List α} {p : α → Bool} {f : α → α}
    (h : ∃ a ∈ l, p a = true) : (updateOne l p f).1 ≠ 0 := by
  induction l with
  | nil => simp at h
  | cons a as ih =>
    obtain ⟨b, hb, hpb⟩ := h
    by_cases ha : p a = true
    · simp [updateOne, ha]
    · have ha' : p a = false := Bool.eq_false_iff.mpr ha
      rcases List.mem_cons.mp hb with rfl | hb'
      · exact absurd hpb ha
      · simpa [updateOne, ha'] using ih ⟨b, hb', hpb⟩

theorem updateOne_find? {p : α → Bool} {f : α → α}
    (hpf : ∀ a, p a = true → p (f a) = true) :
    ∀ {l : List α} {a : α}, l.find? p = some a →
      (updateOne l p f).2.find? p = some (f a) := by
  intro l
  induction l with
  | nil => intro a h; simp at h
  | cons x xs ih =>
    intro a h
    by_cases hx : p x = true
    · rw [List.find?_cons_of_pos _ hx] at h
      injection h with h
      subst h
      simp only [updateOne, hx, if_true]
      exact List.find?_cons_of_pos _ (hpf _ hx)
    · have hx' : p x = false := Bool.eq_false_iff.mpr hx
      rw [List.find?_cons_of_neg _ hx] at h
      simp only [updateOne, hx', Bool.false_eq_true, if_false]
      rw [List.find?_cons_of_neg _ hx]
      exact ih h

theorem updateOne_key_mem (key : α → String) {k : String} {f : α → α} :
    ∀ {l : List α}, (l.map key).Nodup →
      ∀ b ∈ (updateOne l (fun a => key a == k) f).2, key b = k →
        ∃ a, a ∈ l ∧ key a = k ∧ b = f a := by
  intro l
  induction l with
  | nil => intro _ b hb; simp [updateOne] at hb
  | cons x xs ih =>
    intro hnd b hb hk
    rw [List.map_cons, List.nodup_cons] at hnd
    obtain ⟨hnx, hnd'⟩ := hnd
    by_cases hx : key x = k
    · have hpx : (fun a => key a == k) x = true := by simp [hx]
      simp only [updateOne, hpx, if_true, List.mem_cons] at hb
      rcases hb with rfl | hb'
      · exact ⟨x, List.mem_cons_self x xs, hx, rfl⟩
      · exact absurd (hx ▸ hk ▸ List.mem_map_of_mem key hb') hnx
    · have hpx : (fun a => key a == k) x = false := by simp [hx]
      simp only [updateOne, hpx, Bool.false_eq_true, if_false, List.mem_cons] at hb
      rcases hb with rfl | hb'
      · exact absurd hk hx
      · obtain ⟨a, ha, hak, hba⟩ := ih hnd' b hb' hk
        exact ⟨a, List.mem_cons_of_mem x ha, hak, hba⟩

theorem mem_of_mem_updateOne {l : List α} {p : α → Bool} {f : α → α} {b : α}
    (h : b ∈ (updateOne l p f).2) : b ∈ l ∨ ∃ a ∈ l, b = f a := by
  induction l with
  | nil => simp [updateOne] at h
  | cons x xs ih =>
    by_cases hx : p x = true
    · simp only [updateOne, hx, if_true, List.mem_cons] at h
      rcases h with rfl | h'
      · exact Or.inr ⟨x, List.mem_cons_self x xs, rfl⟩
      · exact Or.inl (List.mem_cons_of_mem x h')
    · have hx' : p x = false := Bool.eq_false_iff.mpr hx
      simp only [updateOne, hx', Bool.false_eq_true, if_false, List.mem_cons] at h
      rcases h with hbx | h'
      · exact Or.inl (by simp [hbx])
      · rcases ih h' with h'' | ⟨a, ha, hba⟩
        · exact Or.inl (List.mem_cons_of_mem x h'')
        · exact Or.inr ⟨a, List.mem_cons_of_mem x ha, hba⟩

theorem find?_append_singleton {l : List α} {p : α → Bool} {x : α}
    (h : ∀ a ∈ l, p a = false) (hx : p x = true) :
    (l ++ [x]).find? p = some x := by
  induction l with
  | nil => simp [List.find?, hx]
  | cons a as ih =>
    have ha : ¬ p a = true := by
      simp [h a (List.mem_cons_self a as)]
    rw [List.cons_append, List.find?_cons_of_neg _ ha]
    exact ih (fun b hb => h b (List.mem_cons_of_mem a hb))

/-! ### Sample documents for concrete witnesses and counterexamples -/

def sStudent : StudentDoc :=
  { _id := "aaaaaaaaaaaaaaaaaaaaaaaa", name := "n1", gender := "girl",
    grade := "2", code := "1234", avatar := "girl", created_at := "t0",
    updated_at := none }

def sStudent2 : StudentDoc :=
  { _id := "dddddddddddddddddddddddd", name := "n2", gender := "boy",
    grade := "1", code := "5678", avatar := "boy", created_at := "t1",
    updated_at := none }

def sLesson : LessonDoc :=
  { _id := "eeeeeeeeeeeeeeeeeeeeeeee", student_id := "aaaaaaaaaaaaaaaaaaaaaaaa",
    date := "2026-01-05", start_time := "10:00", topic := "math",
    notes := none, status := .scheduled, created_at := "t2", updated_at := none }

def sHw : HomeworkDoc :=
  { _id := "bbbbbbbbbbbbbbbbbbbbbbbb", student_id := "aaaaaaaaaaaaaaaaaaaaaaaa",
    lesson_id := none, title := "hw1", description := none, due_date := none,
    attachment_url := none, status := .pending, created_at := "t3",
    updated_at := none }

def sSub : SubmissionDoc :=
  { _id := "cccccccccccccccccccccccc", homework_id := "bbbbbbbbbbbbbbbbbbbbbbbb",
    student_id := "aaaaaaaaaaaaaaaaaaaaaaaa", file_url := none,
    submitted_at := some "t4", status := .submitted, grade := none,
    feedback := none, created_at := "t4", updated_at := none }

def sMsg : MessageDoc :=
  { _id := "ffffffffffffffffffffffff", student_id := "aaaaaaaaaaaaaaaaaaaaaaaa",
    sender := .teacher, text := "hi", read := false, created_at := "t5",
    updated_at := none }

/-- Sample store used by the concrete witnesses. -/
def sDb : DB :=
  { student := [sStudent, sStudent2], lesson := [sLesson], homework := [sHw],
    submission := [sSub], message := [sMsg] }

/-- A store with a single student, for witnesses that extract the student
returned by a lookup. -/
def sDb1 : DB :=
  { student := [sStudent], lesson := [], homework := [], submission := [],
    message := [] }

/-- A submission whose `homework_id` is not a structurally valid ObjectId
string: the store is schemaless and enforces nothing about this field. -/
def xSub : SubmissionDoc :=
  { _id := "999999999999999999999999", homework_id := "not-a-valid-oid",
    student_id := "s1", file_url := none, submitted_at := none,
    status := .submitted, grade := none, feedback := none, created_at := "t6",
    updated_at := none }

def xDb : DB :=
  { student := [], lesson := [], homework := [], submission := [xSub],
    message := [] }

/-! ### C4 -/

/-- C4 (counterexample): `delete_homework` issues the submission
`delete_many` BEFORE validating the identifier. On the structurally invalid
id "not-a-valid-oid" it does fail with `InvalidIdentifier`, but a stored
submission whose `homework_id` equals that raw string has already been
deleted, so the failure does not precede every store access. -/
theorem delete_homework_invalid_id_store_access :
    isValidOid "not-a-valid-oid" = false ∧
    delete_homework xDb "not-a-valid-oid"
      = (.error .invalidIdentifier, { xDb with submission := [] }) ∧
    xDb.submission ≠ [] :=
  ⟨by decide, rfl, by decide⟩

/-- C4 (amended): for every input string that is not a structurally valid
store identifier, every identifier-taking endpoint except Homework delete
fails with `InvalidIdentifier` and leaves the store untouched;
`delete_homework` first unconditionally deletes every Submission whose
`homework_id` equals the raw input string and only then fails with
`InvalidIdentifier`, leaving the other collections untouched. -/
theorem invalid_identifier_short_circuits (db : DB) (s : String)
    (hs : isValidOid s = false) (dS : StudentIn) (dL : LessonIn)
    (dH : HomeworkIn) (sb : SubmitRequest) (g : GradeRequest)
    (now newId sid : String) :
    update_student db s dS now = (.error .invalidIdentifier, db) ∧
    delete_student db s = (.error .invalidIdentifier, db) ∧
    update_lesson db s dL now = (.error .invalidIdentifier, db) ∧
    delete_lesson db s = (.error .invalidIdentifier, db) ∧
    update_homework db s dH now = (.error .invalidIdentifier, db) ∧
    submit_homework db s sid sb now newId = (.error .invalidIdentifier, db) ∧
    grade_submission db s g now = (.error .invalidIdentifier, db) ∧
    mark_read db s now = (.error .invalidIdentifier, db) ∧
    delete_homework db s = (.error .invalidIdentifier,
      { db with submission := deleteMany db.submission (fun x => x.homework_id == s) }) := by
  refine ⟨?_, ?_, ?_, ?_, ?_, ?_, ?_, ?_, ?_⟩ <;>
    simp [update_student, delete_student, update_lesson, delete_lesson,
      update_homework, submit_homework, grade_submission, mark_read,
      delete_homework, oid, hs]

/-- C4 (witness): the amended theorem applied to the sample store and the
invalid identifier "zz". -/
theorem invalid_identifier_short_circuits_witness :
    delete_lesson sDb "zz" = (.error .invalidIdentifier, sDb) ∧
    delete_homework sDb "zz" = (.error .invalidIdentifier,
      { sDb with submission := deleteMany sDb.submission (fun x => x.homework_id == "zz") }) := by
  have h := invalid_identifier_short_circuits sDb "zz" (by decide)
    ⟨"n", "boy", "1", "1", "boy"⟩ ⟨"s", "d", "t", "p", none, .scheduled⟩
    ⟨"s", none, "t", none, none, none, .pending⟩ ⟨none⟩ ⟨1, none⟩
    "now" "id" "sid"
  exact ⟨h.2.2.2.1, h.2.2.2.2.2.2.2.2⟩

/-! ### C8 -/

/-- C8 (counterexample): `login` strips the presented code before comparing.
The presented code " 9999" differs from the configured teacher secret "9999"
and belongs to no student, yet login returns the teacher role instead of
failing with `NotFound`: the comparison is not exact-string on the presented
code. -/
theorem login_not_exact_string :
    " 9999" ≠ TEACHER_CODE none ∧
    (∀ st ∈ sDb1.student, st.code ≠ " 9999") ∧
    login sDb1 (TEACHER_CODE none) " 9999"
      = .ok { role := .teacher, student := none } :=
  ⟨by decide, by decide, rfl⟩

/-- C8 (amended): `login` first strips leading/trailing whitespace from the
presented code; the comparison of the STRIPPED code is then exact-string and
case-sensitive: if it equals the configured teacher secret the teacher role
is returned with no student payload, otherwise a student holding that exact
stripped code is returned with its serialized data, otherwise the call fails
with `NotFound`. -/
theorem login_spec (db : DB) (tc code : String) :
    (pyStrip code = tc →
      login db tc code = .ok { role := .teacher, student := none }) ∧
    (pyStrip code ≠ tc →
      ((∃ st ∈ db.student, st.code = pyStrip code) →
        ∃ st, st ∈ db.student ∧ st.code = pyStrip code ∧
          login db tc code
            = .ok { role := .student, student := some (serializeStudent st) }) ∧
      ((∀ st ∈ db.student, st.code ≠ pyStrip code) →
        login db tc code = .error .notFound)) := by
  constructor
  · intro h
    simp [login, h]
  · intro h
    have hne : (pyStrip code == tc) = false := by
      simpa using h
    constructor
    · intro hex
      cases hfind : db.student.find? (fun s => s.code == pyStrip code) with
      | none =>
        rw [List.find?_eq_none] at hfind
        obtain ⟨st, hst, he⟩ := hex
        exact absurd (by simp [he]) (hfind st hst)
      | some st =>
        refine ⟨st, List.mem_of_find?_eq_some hfind, ?_, ?_⟩
        · simpa using List.find?_some hfind
        · simp [login, hne, hfind]
    · intro hall
      have hfind : db.student.find? (fun s => s.code == pyStrip code) = none := by
        rw [List.find?_eq_none]
        intro st hst
        simp [hall st hst]
      simp [login, hne, hfind]

/-- C8 (witness): the amended theorem on the sample store: a real student
code (presented with surrounding whitespace) logs that student in. -/
theorem login_spec_witness :
    login sDb1 "9999" " 1234"
      = .ok { role := .student, student := some (serializeStudent sStudent) } := by
  obtain ⟨st, hst, -, hl⟩ :=
    ((login_spec sDb1 "9999" " 1234").2 (by decide)).1 ⟨sStudent, by decide, by decide⟩
  have hst' : st = sStudent := by
    simpa [sDb1] using hst
  rw [hst'] at hl
  exact hl

/-! ### C5 -/

/-- C5: `add_student` fails with `DuplicateCode` and leaves every collection
of the store unchanged when the input code already belongs to an existing
student; otherwise it inserts the document built from the input (with the
generated id and the creation stamp), re-fetches it by that id, and returns
its serialized form. -/
theorem add_student_spec (db : DB) (input : StudentIn) (newId now : String) :
    ((∃ st ∈ db.student, st.code = input.code) →
      add_student db input newId now = (.error .duplicateCode, db)) ∧
    ((∀ st ∈ db.student, st.code ≠ input.code) →
      (∀ st ∈ db.student, st._id ≠ newId) →
      ∃ doc : StudentDoc,
        doc = { _id := newId, name := input.name, gender := input.gender,
                grade := input.grade, code := input.code,
                avatar := input.avatar, created_at := now,
                updated_at := none } ∧
        add_student db input newId now
          = (.ok (some (serializeStudent doc)),
             { db with student := db.student ++ [doc] })) := by
  constructor
  · intro hex
    have hsome : (db.student.find? (fun s => s.code == input.code)).isSome = true := by
      rw [List.find?_isSome]
      obtain ⟨st, hst, he⟩ := hex
      exact ⟨st, hst, by simp [he]⟩
    simp [add_student, hsome]
  · intro hall hfresh
    have hnone : (db.student.find? (fun s => s.code == input.code)).isSome = false := by
      rw [Bool.eq_false_iff, ne_eq, List.find?_isSome]
      push_neg
      intro st hst
      simp [hall st hst]
    refine ⟨_, rfl, ?_⟩
    have hfind := find?_append_singleton (l := db.student)
      (p := fun s : StudentDoc => s._id == newId)
      (x := { _id := newId, name := input.name, gender := input.gender,
              grade := input.grade, code := input.code, avatar := input.avatar,
              created_at := now, updated_at := none })
      (fun st hst => by simp [hfresh st hst]) (by simp)
    simp [add_student, hnone, create_document, hfind]

/-- C5 (witness): inserting a fresh code into the sample store succeeds;
re-using an existing code fails with `DuplicateCode` and leaves the store
unchanged. -/
theorem add_student_spec_witness :
    add_student sDb ⟨"n3", "boy", "3", "1234", "boy"⟩ "123456123456123456123456" "t7"
      = (.error .duplicateCode, sDb) := by
  exact (add_student_spec sDb ⟨"n3", "boy", "3", "1234", "boy"⟩
    "123456123456123456123456" "t7").1 ⟨sStudent, by decide, by decide⟩

/-! ### C6 -/

/-- C6: for a structurally valid student id, `update_student` fails with
`DuplicateCode` exactly when the input code belongs to a student other than
the one identified by the id (the uniqueness check excludes the record being
updated, so re-using the student's own code succeeds); when no such other
holder exists it succeeds on an existing student — returning the updated
serialized student — and fails with `NotFound` on an absent one, leaving the
store unchanged. -/
theorem update_student_spec (db : DB) (id : String) (data : StudentIn)
    (now : String) (hid : isValidOid id = true) :
    ((∃ st ∈ db.student, st.code = data.code ∧ st._id ≠ hexLower id) →
      update_student db id data now = (.error .duplicateCode, db)) ∧
    ((∀ st ∈ db.student, st.code = data.code → st._id = hexLower id) →
      ((∃ st ∈ db.student, st._id = hexLower id) →
        ∃ out : StudentOut, (update_student db id data now).1 = .ok (some out) ∧
          out.id = hexLower id ∧ out.code = data.code ∧ out.name = data.name ∧
          out.gender = data.gender ∧ out.grade = data.grade ∧
          out.avatar = data.avatar) ∧
      ((∀ st ∈ db.student, st._id ≠ hexLower id) →
        update_student db id data now = (.error .notFound, db))) := by
  constructor
  · intro hex
    have hsome : (db.student.find?
        (fun s => s.code == data.code && s._id != hexLower id)).isSome = true := by
      rw [List.find?_isSome]
      obtain ⟨st, hst, he1, he2⟩ := hex
      exact ⟨st, hst, by simp [he1, he2]⟩
    simp [update_student, oid, hid, hsome]
  · intro hself
    have hnone : (db.student.find?
        (fun s => s.code == data.code && s._id != hexLower id)).isSome = false := by
      rw [Bool.eq_false_iff, ne_eq, List.find?_isSome]
      push_neg
      intro st hst
      by_cases hc : st.code = data.code
      · simp [hc, hself st hst hc]
      · simp [hc]
    constructor
    · intro hex
      have hpos := updateOne_fst_pos (l := db.student)
        (p := fun s : StudentDoc => s._id == hexLower id) (f := studentSet data now)
        (by obtain ⟨st, hst, he⟩ := hex; exact ⟨st, hst, by simp [he]⟩)
      have hfind0 : (db.student.find? (fun s => s._id == hexLower id)).isSome = true := by
        rw [List.find?_isSome]
        obtain ⟨st, hst, he⟩ := hex
        exact ⟨st, hst, by simp [he]⟩
      obtain ⟨a, hfind⟩ := Option.isSome_iff_exists.mp hfind0
      have haid : a._id = hexLower id := by
        simpa using List.find?_some hfind
      have hfind' := updateOne_find? (p := fun s : StudentDoc => s._id == hexLower id)
        (f := studentSet data now) (fun s hs => by simpa [studentSet] using hs) hfind
      refine ⟨serializeStudent (studentSet data now a), ?_,
        by simp [serializeStudent, studentSet, haid],
        by simp [serializeStudent, studentSet], by simp [serializeStudent, studentSet],
        by simp [serializeStudent, studentSet], by simp [serializeStudent, studentSet],
        by simp [serializeStudent, studentSet]⟩
      simp [update_student, oid, hid, hnone, hpos, hfind']
    · intro habs
      have hzero := updateOne_of_no_match (l := db.student)
        (p := fun s : StudentDoc => s._id == hexLower id) (f := studentSet data now)
        (fun st hst => by simp [habs st hst])
      simp [update_student, oid, hid, hnone, hzero]

/-- C6 (witness): in the sample store, updating `sStudent` while re-using
its own current code "1234" succeeds and returns the updated student. -/
theorem update_student_spec_witness :
    ∃ out : StudentOut,
      (update_student sDb "aaaaaaaaaaaaaaaaaaaaaaaa"
        ⟨"n1b", "girl", "3", "1234", "girl"⟩ "t8").1 = .ok (some out) ∧
      out.id = "aaaaaaaaaaaaaaaaaaaaaaaa" ∧ out.code = "1234" ∧
      out.name = "n1b" := by
  obtain ⟨out, h1, h2, h3, h4, -⟩ :=
    ((update_student_spec sDb "aaaaaaaaaaaaaaaaaaaaaaaa"
      ⟨"n1b", "girl", "3", "1234", "girl"⟩ "t8" (by decide)).2
      (by decide)).1 ⟨sStudent, by decide, by decide⟩
  exact ⟨out, h1, by simpa using h2, h3, h4⟩

/-! ### C1 and C9: the student cascade -/

theorem cascadeStudent_eq (db : DB) (id : String) :
    cascadeStudent db id =
      { student := db.student,
        lesson := deleteMany db.lesson (fun l => l.student_id == id),
        homework := deleteMany db.homework (fun h => h.student_id == id),
        submission := (db.homework.filter (fun h => h.student_id == id)).foldl
          (fun acc hw => deleteMany acc (fun s => s.homework_id == hw._id))
          db.submission,
        message := deleteMany db.message (fun m => m.student_id == id) } := rfl

theorem delete_student_eq (db : DB) (id : String) (hid : isValidOid id = true) :
    delete_student db id =
      (if (deleteOne (cascadeStudent db id).student
            (fun s => s._id == hexLower id)).1 = 0
       then (.error .notFound,
             { cascadeStudent db id with
                 student := (deleteOne (cascadeStudent db id).student
                   (fun s => s._id == hexLower id)).2 })
       else (.ok (),
             { cascadeStudent db id with
                 student := (deleteOne (cascadeStudent db id).student
                   (fun s => s._id == hexLower id)).2 })) := by
  simp [delete_student, oid, hid]

/-- C1: for a structurally valid student id, when a matching Student exists,
`delete_student` succeeds and afterwards no Lesson with that `student_id`,
no Submission whose `homework_id` equals the id of a Homework with that
`student_id`, no such Homework, no Message with that `student_id`, and no
Student with that id remain; when no matching Student exists it fails with
`NotFound`. -/
theorem delete_student_spec (db : DB) (id : String) (hid : isValidOid id = true)
    (hnd : (db.student.map (fun s => s._id)).Nodup) :
    ((∃ st ∈ db.student, st._id = hexLower id) →
      (delete_student db id).1 = .ok () ∧
      (∀ l ∈ (delete_student db id).2.lesson, l.student_id ≠ id) ∧
      (∀ hw ∈ db.homework, hw.student_id = id →
        ∀ s ∈ (delete_student db id).2.submission, s.homework_id ≠ hw._id) ∧
      (∀ hw ∈ (delete_student db id).2.homework, hw.student_id ≠ id) ∧
      (∀ m ∈ (delete_student db id).2.message, m.student_id ≠ id) ∧
      (∀ st ∈ (delete_student db id).2.student, st._id ≠ hexLower id)) ∧
    ((∀ st ∈ db.student, st._id ≠ hexLower id) →
      (delete_student db id).1 = .error .notFound) := by
  constructor
  · intro hex
    have hpos : (deleteOne (cascadeStudent db id).student
        (fun s => s._id == hexLower id)).1 ≠ 0 := by
      rw [cascadeStudent_eq]
      obtain ⟨st, hst, he⟩ := hex
      exact deleteOne_fst_pos ⟨st, hst, by simp [he]⟩
    rw [delete_student_eq db id hid, if_neg hpos]
    refine ⟨rfl, ?_, ?_, ?_, ?_, ?_⟩
    · intro l hl
      rw [show ((Except.ok (),
          { cascadeStudent db id with
              student := (deleteOne (cascadeStudent db id).student
                (fun s => s._id == hexLower id)).2 }) :
            Except Err Unit × DB).2.lesson
          = deleteMany db.lesson (fun l => l.student_id == id) from by
        rw [cascadeStudent_eq]] at hl
      have := (mem_deleteMany.mp hl).2
      simpa using this
    · intro hw hhw hsid s hs
      rw [show ((Except.ok (),
          { cascadeStudent db id with
              student := (deleteOne (cascadeStudent db id).student
                (fun s => s._id == hexLower id)).2 }) :
            Except Err Unit × DB).2.submission
          = (db.homework.filter (fun h => h.student_id == id)).foldl
              (fun acc hw => deleteMany acc (fun s => s.homework_id == hw._id))
              db.submission from by
        rw [cascadeStudent_eq]] at hs
      have hmem := (mem_foldl_deleteMany
        (fun (s : SubmissionDoc) (h : HomeworkDoc) => s.homework_id == h._id)
        _ _ _).mp hs
      have := hmem.2 hw (List.mem_filter.mpr ⟨hhw, by simp [hsid]⟩)
      simpa using this
    · intro hw hhw
      rw [show ((Except.ok (),
          { cascadeStudent db id with
              student := (deleteOne (cascadeStudent db id).student
                (fun s => s._id == hexLower id)).2 }) :
            Except Err Unit × DB).2.homework
          = deleteMany db.homework (fun h => h.student_id == id) from by
        rw [cascadeStudent_eq]] at hhw
      have := (mem_deleteMany.mp hhw).2
      simpa using this
    · intro m hm
      rw [show ((Except.ok (),
          { cascadeStudent db id with
              student := (deleteOne (cascadeStudent db id).student
                (fun s => s._id == hexLower id)).2 }) :
            Except Err Unit × DB).2.message
          = deleteMany db.message (fun m => m.student_id == id) from by
        rw [cascadeStudent_eq]] at hm
      have := (mem_deleteMany.mp hm).2
      simpa using this
    · intro st hst
      rw [show ((Except.ok (),
          { cascadeStudent db id with
              student := (deleteOne (cascadeStudent db id).student
                (fun s => s._id == hexLower id)).2 }) :
            Except Err Unit × DB).2.student
          = (deleteOne db.student (fun s => s._id == hexLower id)).2 from by
        rw [cascadeStudent_eq]] at hst
      exact deleteOne_key_not_mem (fun s : StudentDoc => s._id)
        (k := hexLower id) hnd st hst
  · intro habs
    have hzero : deleteOne (cascadeStudent db id).student
        (fun s => s._id == hexLower id) = (0, db.student) := by
      rw [cascadeStudent_eq]
      exact deleteOne_of_no_match (fun st hst => by simp [habs st hst])
    rw [delete_student_eq db id hid, hzero]
    simp

/-- C1 (witness): deleting `sStudent` from the sample store. -/
theorem delete_student_spec_witness :
    (delete_student sDb "aaaaaaaaaaaaaaaaaaaaaaaa").1 = .ok () ∧
    (∀ l ∈ (delete_student sDb "aaaaaaaaaaaaaaaaaaaaaaaa").2.lesson,
      l.student_id ≠ "aaaaaaaaaaaaaaaaaaaaaaaa") ∧
    (∀ st ∈ (delete_student sDb "aaaaaaaaaaaaaaaaaaaaaaaa").2.student,
      st._id ≠ hexLower "aaaaaaaaaaaaaaaaaaaaaaaa") := by
  have h := (delete_student_spec sDb "aaaaaaaaaaaaaaaaaaaaaaaa"
    (by decide) (by decide)).1 ⟨sStudent, by decide, by decide⟩
  exact ⟨h.1, h.2.1, h.2.2.2.2.2⟩

/-- C9: on a structurally valid id that matches no Student, `delete_student`
still performs the entire cascade — afterward no Lesson, Homework,
Submission-of-those-Homeworks, or Message referencing the id remains — and
only then fails with `NotFound`; the failing call leaves the store in the
cascaded state, not the original one. -/
theorem delete_student_absent_spec (db : DB) (id : String)
    (hid : isValidOid id = true)
    (habs : ∀ st ∈ db.student, st._id ≠ hexLower id) :
    delete_student db id = (.error .notFound, cascadeStudent db id) ∧
    (∀ l ∈ (cascadeStudent db id).lesson, l.student_id ≠ id) ∧
    (∀ hw ∈ db.homework, hw.student_id = id →
      ∀ s ∈ (cascadeStudent db id).submission, s.homework_id ≠ hw._id) ∧
    (∀ hw ∈ (cascadeStudent db id).homework, hw.student_id ≠ id) ∧
    (∀ m ∈ (cascadeStudent db id).message, m.student_id ≠ id) := by
  have hzero : deleteOne (cascadeStudent db id).student
      (fun s => s._id == hexLower id) = (0, db.student) := by
    rw [cascadeStudent_eq]
    exact deleteOne_of_no_match (fun st hst => by simp [habs st hst])
  refine ⟨?_, ?_, ?_, ?_, ?_⟩
  · rw [delete_student_eq db id hid, hzero]
    simp [cascadeStudent_eq]
  · intro l hl
    rw [cascadeStudent_eq] at hl
    have := (mem_deleteMany.mp hl).2
    simpa using this
  · intro hw hhw hsid s hs
    rw [cascadeStudent_eq] at hs
    have hmem := (mem_foldl_deleteMany
      (fun (s : SubmissionDoc) (h : HomeworkDoc) => s.homework_id == h._id)
      _ _ _).mp hs
    have := hmem.2 hw (List.mem_filter.mpr ⟨hhw, by simp [hsid]⟩)
    simpa using this
  · intro hw hhw
    rw [cascadeStudent_eq] at hhw
    have := (mem_deleteMany.mp hhw).2
    simpa using this
  · intro m hm
    rw [cascadeStudent_eq] at hm
    have := (mem_deleteMany.mp hm).2
    simpa using this

/-- C9 (witness): a valid id matching no student in the sample store: the
call fails with `NotFound` but returns the cascaded store. -/
theorem delete_student_absent_spec_witness :
    delete_student sDb "999999999999999999999999"
      = (.error .notFound, cascadeStudent sDb "999999999999999999999999") :=
  (delete_student_absent_spec sDb "999999999999999999999999"
    (by decide) (by decide)).1

/-! ### C7: homework deletion -/

theorem delete_homework_eq (db : DB) (hw_id : String)
    (hid : isValidOid hw_id = true) :
    delete_homework db hw_id =
      (if (deleteOne db.homework (fun h => h._id == hexLower hw_id)).1 = 0
       then (.error .notFound,
             { db with
                 submission := deleteMany db.submission
                   (fun s => s.homework_id == hw_id),
                 homework := (deleteOne db.homework
                   (fun h => h._id == hexLower hw_id)).2 })
       else (.ok (),
             { db with
                 submission := deleteMany db.submission
                   (fun s => s.homework_id == hw_id),
                 homework := (deleteOne db.homework
                   (fun h => h._id == hexLower hw_id)).2 })) := by
  simp [delete_homework, oid, hid]

/-- C7: for a structurally valid homework id, `delete_homework` first
deletes every Submission whose `homework_id` equals the given id — and does
so unconditionally, before the existence check, hence also when the
homework is absent — then deletes the Homework itself, succeeding when it
exists and failing with `NotFound` otherwise; afterwards listing
submissions filtered by that homework id returns the empty sequence. -/
theorem delete_homework_spec (db : DB) (hw_id : String)
    (hid : isValidOid hw_id = true)
    (hnd : (db.homework.map (fun h => h._id)).Nodup) :
    ((delete_homework db hw_id).2.submission
        = deleteMany db.submission (fun s => s.homework_id == hw_id)) ∧
    (∀ s ∈ (delete_homework db hw_id).2.submission, s.homework_id ≠ hw_id) ∧
    list_submissions (delete_homework db hw_id).2 none (some hw_id) = [] ∧
    ((∃ hw ∈ db.homework, hw._id = hexLower hw_id) →
      (delete_homework db hw_id).1 = .ok () ∧
      ∀ hw ∈ (delete_homework db hw_id).2.homework, hw._id ≠ hexLower hw_id) ∧
    ((∀ hw ∈ db.homework, hw._id ≠ hexLower hw_id) →
      delete_homework db hw_id = (.error .notFound,
        { db with submission :=
            deleteMany db.submission (fun s => s.homework_id == hw_id) })) := by
  have hsub : (delete_homework db hw_id).2.submission
      = deleteMany db.submission (fun s => s.homework_id == hw_id) := by
    rw [delete_homework_eq db hw_id hid]
    split <;> rfl
  have hnotin : ∀ s ∈ (delete_homework db hw_id).2.submission,
      s.homework_id ≠ hw_id := by
    intro s hs
    rw [hsub] at hs
    have := (mem_deleteMany.mp hs).2
    simpa using this
  have hne : (hw_id == "") = false := by
    have hlen : hw_id.length = 24 := by
      have := (Bool.and_eq_true _ _).mp hid
      simpa [isValidOid] using this.1
    simp only [beq_eq_false_iff_ne, ne_eq]
    intro h
    rw [h] at hlen
    simp at hlen
  refine ⟨hsub, hnotin, ?_, ?_, ?_⟩
  · have hfil : (delete_homework db hw_id).2.submission.filter
        (fun s => matchesOptStr none s.student_id &&
          matchesOptStr (some hw_id) s.homework_id) = [] := by
      rw [List.filter_eq_nil_iff]
      intro s hs
      simp [matchesOptStr, hne, hnotin s hs]
    simp [list_submissions, hfil, sortDescBy]
  · intro hex
    have hpos : (deleteOne db.homework (fun h => h._id == hexLower hw_id)).1 ≠ 0 := by
      obtain ⟨hw, hhw, he⟩ := hex
      exact deleteOne_fst_pos ⟨hw, hhw, by simp [he]⟩
    constructor
    · rw [delete_homework_eq db hw_id hid, if_neg hpos]
    · intro hw hhw
      rw [show (delete_homework db hw_id).2.homework
          = (deleteOne db.homework (fun h => h._id == hexLower hw_id)).2 from by
        rw [delete_homework_eq db hw_id hid]
        split <;> rfl] at hhw
      exact deleteOne_key_not_mem (fun h : HomeworkDoc => h._id)
        (k := hexLower hw_id) hnd hw hhw
  · intro habs
    have hzero : deleteOne db.homework (fun h => h._id == hexLower hw_id)
        = (0, db.homework) :=
      deleteOne_of_no_match (fun hw hhw => by simp [habs hw hhw])
    rw [delete_homework_eq db hw_id hid, hzero]
    simp

/-- C7 (witness): deleting the sample homework removes its submission first
and then the homework itself. -/
theorem delete_homework_spec_witness :
    (delete_homework sDb "bbbbbbbbbbbbbbbbbbbbbbbb").1 = .ok () ∧
    (delete_homework sDb "bbbbbbbbbbbbbbbbbbbbbbbb").2.submission = [] ∧
    list_submissions (delete_homework sDb "bbbbbbbbbbbbbbbbbbbbbbbb").2
      none (some "bbbbbbbbbbbbbbbbbbbbbbbb") = [] := by
  have h := delete_homework_spec sDb "bbbbbbbbbbbbbbbbbbbbbbbb"
    (by decide) (by decide)
  refine ⟨(h.2.2.2.1 ⟨sHw, by decide, by decide⟩).1, ?_, h.2.2.1⟩
  rw [h.1]
  decide

/-! ### C2 and C10: homework submission -/

theorem submit_homework_some_eq (db : DB) (hw_id student_id : String)
    (body : SubmitRequest) (now newId : String) (hid : isValidOid hw_id = true)
    (hw0 : HomeworkDoc)
    (hfind0 : db.homework.find? (fun h => h._id == hexLower hw_id) = some hw0) :
    submit_homework db hw_id student_id body now newId =
      ((.ok (((db.submission ++ [newSubmission hw_id student_id body now newId]).find?
          (fun s => s._id == newId)).map serializeSubmission)),
       { db with
           submission := db.submission ++ [newSubmission hw_id student_id body now newId],
           homework := (updateOne db.homework (fun h => h._id == hexLower hw_id)
             (homeworkStatusSet HwStatus.submitted now)).2 }) := by
  simp [submit_homework, oid, hid, hfind0, create_document]

/-- C2: for a structurally valid homework id and a fresh generated
submission id, when the homework exists `submit_homework` creates a
Submission with `status = submitted` and a `submitted_at` timestamp
(appending it to the submission collection and returning its serialized
form) and sets the referenced Homework's status to `submitted`; when the
homework does not exist it fails with `NotFound` and creates no Submission
(the store is unchanged). -/
theorem submit_homework_spec (db : DB) (hw_id student_id : String)
    (body : SubmitRequest) (now newId : String)
    (hid : isValidOid hw_id = true)
    (hfresh : ∀ s ∈ db.submission, s._id ≠ newId) :
    ((∃ hw ∈ db.homework, hw._id = hexLower hw_id) →
      ∃ sub : SubmissionDoc,
        (submit_homework db hw_id student_id body now newId).1
          = .ok (some (serializeSubmission sub)) ∧
        sub.status = .submitted ∧ sub.submitted_at = some now ∧
        (submit_homework db hw_id student_id body now newId).2.submission
          = db.submission ++ [sub] ∧
        ((db.homework.map (fun h => h._id)).Nodup →
          ∀ hw ∈ (submit_homework db hw_id student_id body now newId).2.homework,
            hw._id = hexLower hw_id → hw.status = .submitted)) ∧
    ((∀ hw ∈ db.homework, hw._id ≠ hexLower hw_id) →
      submit_homework db hw_id student_id body now newId = (.error .notFound, db)) := by
  constructor
  · intro hex
    have hsome : (db.homework.find? (fun h => h._id == hexLower hw_id)).isSome = true := by
      rw [List.find?_isSome]
      obtain ⟨hw, hhw, he⟩ := hex
      exact ⟨hw, hhw, by simp [he]⟩
    obtain ⟨hw0, hfind0⟩ := Option.isSome_iff_exists.mp hsome
    have hres := submit_homework_some_eq db hw_id student_id body now newId hid hw0 hfind0
    have hfind := find?_append_singleton (l := db.submission)
      (p := fun s : SubmissionDoc => s._id == newId)
      (x := newSubmission hw_id student_id body now newId)
      (fun st hst => by simp [hfresh st hst]) (by simp [newSubmission])
    refine ⟨newSubmission hw_id student_id body now newId, ?_, rfl, rfl, ?_, ?_⟩
    · rw [hres]
      simp [hfind]
    · rw [hres]
    · intro hnd hw hhw he
      rw [hres] at hhw
      obtain ⟨a, -, -, hba⟩ := updateOne_key_mem
        (fun h : HomeworkDoc => h._id) (k := hexLower hw_id)
        (f := homeworkStatusSet HwStatus.submitted now) hnd hw hhw he
      rw [hba]
      rfl
  · intro habs
    have hnone : db.homework.find? (fun h => h._id == hexLower hw_id) = none := by
      rw [List.find?_eq_none]
      intro hw hhw
      simp [habs hw hhw]
    simp [submit_homework, oid, hid, hnone]

/-- C2 (witness): submitting the pending sample homework. -/
theorem submit_homework_spec_witness :
    ∃ sub : SubmissionDoc,
      (submit_homework sDb "bbbbbbbbbbbbbbbbbbbbbbbb" "aaaaaaaaaaaaaaaaaaaaaaaa"
        ⟨some "http://f"⟩ "t9" "121212121212121212121212").1
        = .ok (some (serializeSubmission sub)) ∧
      sub.status = .submitted ∧ sub.submitted_at = some "t9" := by
  obtain ⟨sub, h1, h2, h3, -, -⟩ :=
    (submit_homework_spec sDb "bbbbbbbbbbbbbbbbbbbbbbbb" "aaaaaaaaaaaaaaaaaaaaaaaa"
      ⟨some "http://f"⟩ "t9" "121212121212121212121212" (by decide)
      (by decide)).1 ⟨sHw, by decide, by decide⟩
  exact ⟨sub, h1, h2, h3⟩

/-- C10: `submit_homework` performs no validation or existence check on the
student identifier: for EVERY string `student_id` — also one that is not a
valid identifier, or identifies no student, or differs from the homework's
own `student_id` — the created Submission stores that string verbatim (and
stores the raw `hw_id` string as its `homework_id`). -/
theorem submit_homework_student_id_verbatim (db : DB)
    (hw_id student_id : String) (body : SubmitRequest) (now newId : String)
    (hid : isValidOid hw_id = true)
    (hex : ∃ hw ∈ db.homework, hw._id = hexLower hw_id)
    (hfresh : ∀ s ∈ db.submission, s._id ≠ newId) :
    ∃ sub : SubmissionDoc,
      (submit_homework db hw_id student_id body now newId).1
        = .ok (some (serializeSubmission sub)) ∧
      sub.student_id = student_id ∧ sub.homework_id = hw_id ∧
      (submit_homework db hw_id student_id body now newId).2.submission
        = db.submission ++ [sub] := by
  have hsome : (db.homework.find? (fun h => h._id == hexLower hw_id)).isSome = true := by
    rw [List.find?_isSome]
    obtain ⟨hw, hhw, he⟩ := hex
    exact ⟨hw, hhw, by simp [he]⟩
  obtain ⟨hw0, hfind0⟩ := Option.isSome_iff_exists.mp hsome
  have hres := submit_homework_some_eq db hw_id student_id body now newId hid hw0 hfind0
  have hfind := find?_append_singleton (l := db.submission)
    (p := fun s : SubmissionDoc => s._id == newId)
    (x := newSubmission hw_id student_id body now newId)
    (fun st hst => by simp [hfresh st hst]) (by simp [newSubmission])
  refine ⟨newSubmission hw_id student_id body now newId, ?_, rfl, rfl, ?_⟩
  · rw [hres]
    simp [hfind]
  · rw [hres]

/-- C10 (witness): a student id that is not even a well-formed identifier
and matches no student is stored verbatim in the created submission. -/
theorem submit_homework_student_id_verbatim_witness :
    ∃ sub : SubmissionDoc,
      (submit_homework sDb "bbbbbbbbbbbbbbbbbbbbbbbb" "no such student!!"
        ⟨none⟩ "t9" "343434343434343434343434").1
        = .ok (some (serializeSubmission sub)) ∧
      sub.student_id = "no such student!!" ∧
      sub.homework_id = "bbbbbbbbbbbbbbbbbbbbbbbb" := by
  obtain ⟨sub, h1, h2, h3, -⟩ :=
    submit_homework_student_id_verbatim sDb "bbbbbbbbbbbbbbbbbbbbbbbb"
      "no such student!!" ⟨none⟩ "t9" "343434343434343434343434"
      (by decide) ⟨sHw, by decide, by decide⟩ (by decide)
  exact ⟨sub, h1, h2, h3⟩

/-! ### C3: grading -/

theorem grade_submission_some_eq (db : DB) (sub_id : String)
    (body : GradeRequest) (now : String) (hid : isValidOid sub_id = true)
    (s0 : SubmissionDoc)
    (hfind : db.submission.find? (fun s => s._id == hexLower sub_id) = some s0)
    (hok : isValidOid s0.homework_id = true) :
    grade_submission db sub_id body now =
      ((.ok (some (serializeSubmission (submissionGradeSet body now s0)))),
       { db with
           submission := (updateOne db.submission
             (fun s => s._id == hexLower sub_id) (submissionGradeSet body now)).2,
           homework := (updateOne db.homework
             (fun h => h._id == hexLower s0.homework_id)
             (homeworkStatusSet HwStatus.graded now)).2 }) := by
  have hpos := updateOne_fst_pos (l := db.submission)
    (p := fun s : SubmissionDoc => s._id == hexLower sub_id)
    (f := submissionGradeSet body now)
    ⟨s0, List.mem_of_find?_eq_some hfind, by simpa using List.find?_some hfind⟩
  have hfind' := updateOne_find?
    (p := fun s : SubmissionDoc => s._id == hexLower sub_id)
    (f := submissionGradeSet body now)
    (fun s hs => by simpa [submissionGradeSet] using hs) hfind
  simp [grade_submission, oid, hid, hpos, hfind', submissionGradeSet, hok]

/-- C3: for a structurally valid submission id, when the id resolves to an
existing Submission (whose stored `homework_id` is itself a structurally
valid identifier string, as is the case for every submission the API
creates), `grade_submission` sets that Submission's status to `graded`,
stores the given grade and feedback, and sets the parent Homework (found
via the submission's `homework_id`) to `graded`; if that parent Homework no
longer exists the homework update is a no-op and grading still succeeds;
when the submission is absent the call fails with `NotFound` and the store
is unchanged. -/
theorem grade_submission_spec (db : DB) (sub_id : String)
    (body : GradeRequest) (now : String) (hid : isValidOid sub_id = true) :
    ((∀ s ∈ db.submission, s._id ≠ hexLower sub_id) →
      grade_submission db sub_id body now = (.error .notFound, db)) ∧
    (∀ s0 : SubmissionDoc,
      db.submission.find? (fun s => s._id == hexLower sub_id) = some s0 →
      isValidOid s0.homework_id = true →
      ∃ sub : SubmissionDoc,
        (grade_submission db sub_id body now).1
          = .ok (some (serializeSubmission sub)) ∧
        sub.status = .graded ∧ sub.grade = some body.grade ∧
        sub.feedback = body.feedback ∧ sub.homework_id = s0.homework_id ∧
        sub ∈ (grade_submission db sub_id body now).2.submission ∧
        ((db.homework.map (fun h => h._id)).Nodup →
          ∀ hw ∈ (grade_submission db sub_id body now).2.homework,
            hw._id = hexLower s0.homework_id → hw.status = .graded) ∧
        ((∀ hw ∈ db.homework, hw._id ≠ hexLower s0.homework_id) →
          (grade_submission db sub_id body now).2.homework = db.homework)) := by
  constructor
  · intro habs
    have hzero := updateOne_of_no_match (l := db.submission)
      (p := fun s : SubmissionDoc => s._id == hexLower sub_id)
      (f := submissionGradeSet body now)
      (fun s hs => by simp [habs s hs])
    simp [grade_submission, oid, hid, hzero]
  · intro s0 hfind hok
    have hres := grade_submission_some_eq db sub_id body now hid s0 hfind hok
    have hfind' := updateOne_find?
      (p := fun s : SubmissionDoc => s._id == hexLower sub_id)
      (f := submissionGradeSet body now)
      (fun s hs => by simpa [submissionGradeSet] using hs) hfind
    refine ⟨submissionGradeSet body now s0, by rw [hres], rfl, rfl, rfl, rfl,
      ?_, ?_, ?_⟩
    · rw [hres]
      exact List.mem_of_find?_eq_some hfind'
    · intro hnd hw hhw he
      rw [hres] at hhw
      obtain ⟨a, -, -, hba⟩ := updateOne_key_mem
        (fun h : HomeworkDoc => h._id) (k := hexLower s0.homework_id)
        (f := homeworkStatusSet HwStatus.graded now) hnd hw hhw he
      rw [hba]
      rfl
    · intro habs
      rw [hres]
      have hz := updateOne_of_no_match (l := db.homework)
        (p := fun h : HomeworkDoc => h._id == hexLower s0.homework_id)
        (f := homeworkStatusSet HwStatus.graded now)
        (fun hw hhw => by simp [habs hw hhw])
      rw [hz]

/-- A store holding `sSub` whose parent homework has been deleted
independently: grading must still succeed. -/
def sDb2 : DB :=
  { student := [sStudent], lesson := [], homework := [], submission := [sSub],
    message := [] }

/-- C3 (witness): grading the sample submission after its parent homework
was deleted: the submission is graded, the grade is stored, and the (empty)
homework collection is untouched. -/
theorem grade_submission_spec_witness :
    ∃ sub : SubmissionDoc,
      (grade_submission sDb2 "cccccccccccccccccccccccc"
        ⟨19/2, some "good"⟩ "t9").1 = .ok (some (serializeSubmission sub)) ∧
      sub.status = .graded ∧ sub.grade = some ((19 : Rat)/2) ∧
      (grade_submission sDb2 "cccccccccccccccccccccccc"
        ⟨19/2, some "good"⟩ "t9").2.homework = sDb2.homework := by
  obtain ⟨sub, h1, h2, h3, -, -, -, -, h8⟩ :=
    (grade_submission_spec sDb2 "cccccccccccccccccccccccc"
      ⟨19/2, some "good"⟩ "t9" (by decide)).2 sSub (by decide) (by decide)
  exact ⟨sub, h1, h2, h3, h8 (by decide)⟩

end MamaEidah
